import Mathlib

/-!
Verification of the Coverage Tracking & Follow-up Scheduling Engine
implemented in src/CnC.py.

This file gives a shallow embedding of the engine: per-cycle oracle
replies are inputs (the engine trusts external classifiers), bullet
state and cooldown bookkeeping are explicit maps keyed by bullet id,
and an evaluation cycle is a pure function on that state, following
the body of run_pipeline (src/CnC.py lines 194-209).  Timestamps are
integers (seconds): the engine only subtracts and compares times, so
exact integer arithmetic stands in for Python's time.time() floats.
-/

namespace CnC

/-- A bullet point of the model answer: one entry of MODEL_ANSWER
(src/CnC.py lines 15-19), with its stable id and text. -/
structure Bullet where
  id : String
  text : String
deriving DecidableEq

/-- src/CnC.py lines 15-19: the demo model-answer bullets. -/
def MODEL_ANSWER : List Bullet :=
  [⟨"b1", "Quicksort average-case is O(n log n)"⟩,
   ⟨"b2", "Quicksort worst-case is O(n^2)"⟩,
   ⟨"b3", "Pivot choice determines partition quality"⟩]

/-- src/CnC.py line 22: FOLLOWUP_COOLDOWN = 30 seconds between
follow-ups per bullet. -/
def FOLLOWUP_COOLDOWN : ℤ := 30

/-- The parsed outcome of one Gemini JSON reply, as seen by the
json.loads / dict.get code in src/CnC.py lines 86-104: `none` models a
reply that fails to parse as JSON (the except branch), `some none` a
JSON object without the expected key (dict.get takes the default),
and `some (some s)` a JSON object carrying the string s under the
expected key. -/
abbrev Reply := Option (Option String)

/-- src/CnC.py lines 86-94, detect_uncertainty_gemini: the value under
key "state", with default "knows" both for a missing key and on a
parse failure. -/
def detect_uncertainty_gemini (r : Reply) : String :=
  match r with
  | some (some s) => s
  | _ => "knows"

/-- src/CnC.py lines 96-104, classify_coverage_gemini: the value under
key "status", with default "incomplete" both for a missing key and on
a parse failure. -/
def classify_coverage_gemini (r : Reply) : String :=
  match r with
  | some (some s) => s
  | _ => "incomplete"

/-- A follow-up question that was emitted: target bullet id and
question text (the dict built in src/CnC.py lines 165-168). -/
structure Followup where
  bulletId : String
  text : String
deriving DecidableEq

/-- src/CnC.py line 167: the follow-up question template. -/
def followup_text (t : String) : String :=
  "You haven’t clearly covered this point yet: '" ++ t ++ "'. Could you elaborate?"

/-- The engine's mutable state: BULLET_STATE and LAST_FOLLOWUP_TIME
(src/CnC.py lines 107-108, both keyed by bullet id) together with
run_pipeline's last_followup loop variable (line 179). -/
structure EngineState where
  bulletState : String → String
  lastFollowupTime : String → ℤ
  lastFollowup : Option Followup

/-- src/CnC.py lines 107-108 and 179: every bullet starts "uncovered",
every cooldown stamp starts at 0, and no follow-up has been issued. -/
def init_state : EngineState :=
  { bulletState := fun _ => "uncovered"
    lastFollowupTime := fun _ => 0
    lastFollowup := none }

/-- The oracle replies consumed by one evaluation cycle: the coverage
reply for each bullet id (classify_coverage_gemini is called once per
bullet, line 119) and the single uncertainty reply for the drained
batch (line 128). -/
structure CycleInput where
  covReply : String → Reply
  confReply : Reply

/-- The loop of recompute_coverage_with_gemini (src/CnC.py lines
117-121): for each bullet in order, classify it and write the status
both into BULLET_STATE and into the summary dict.  The summary is a
partial map, as a Python dict read through .get. -/
def recompute_fold (cov : String → Reply) :
    List Bullet → (String → String) → (String → Option String) →
    (String → String) × (String → Option String)
  | [], bs, sm => (bs, sm)
  | b :: rest, bs, sm =>
      let status := classify_coverage_gemini (cov b.id)
      recompute_fold cov rest (Function.update bs b.id status)
        (Function.update sm b.id (some status))

/-- src/CnC.py lines 112-122, recompute_coverage_with_gemini: evaluate
every bullet against the full answer (the per-bullet oracle reply is
the cycle input), update BULLET_STATE directly, and return the
summary. -/
def recompute_coverage_with_gemini (bullets : List Bullet) (cov : String → Reply)
    (bs : String → String) : (String → String) × (String → Option String) :=
  recompute_fold cov bullets bs (fun _ => none)

/-- src/CnC.py lines 124-136, update_states: read the uncertainty
verdict for the latest batch and, when a follow-up is outstanding,
override that bullet's state: does_not_know makes it "skipped",
uncertain makes it "pending", and knows reverts it to "uncovered"
unless it is already "covered". -/
def update_states (conf : Reply) (last_followup : Option Followup)
    (bs : String → String) : String → String :=
  let gem_state := detect_uncertainty_gemini conf
  match last_followup with
  | none => bs
  | some f =>
      if gem_state = "does_not_know" then Function.update bs f.bulletId "skipped"
      else if gem_state = "uncertain" then Function.update bs f.bulletId "pending"
      else if gem_state = "knows" ∧ ¬ bs f.bulletId = "covered" then
        Function.update bs f.bulletId "uncovered"
      else bs

/-- src/CnC.py lines 144-155: the ordered candidate list — bullets
whose summary verdict is "partial" first, then those whose verdict is
"incomplete", each group in bullet-declaration order. -/
def candidate_list (bullets : List Bullet) (summary : String → Option String) :
    List Bullet :=
  bullets.filter (fun b => summary b.id = some "partial") ++
    bullets.filter (fun b => summary b.id = some "incomplete")

/-- The three guards of the selection walk (src/CnC.py lines 158-162):
the bullet's state is one of the four schedulable states, it is not
the bullet of the immediately preceding follow-up, and its cooldown
has elapsed. -/
def eligible (bs : String → String) (lft : String → ℤ) (last_followup : Option Followup)
    (now : ℤ) (b : Bullet) : Bool :=
  decide (bs b.id ∈ (["uncovered", "pending", "partial", "incomplete"] : List String))
    && (match last_followup with
        | some f => ! decide (f.bulletId = b.id)
        | none => true)
    && ! decide (now - lft b.id < FOLLOWUP_COOLDOWN)

/-- The for loop of src/CnC.py lines 157-168: walk the candidates in
order and stop at the first one passing all three guards. -/
def select_walk (bs : String → String) (lft : String → ℤ)
    (last_followup : Option Followup) (now : ℤ) : List Bullet → Option Bullet
  | [] => none
  | b :: rest =>
      if eligible bs lft last_followup now b then some b
      else select_walk bs lft last_followup now rest

/-- src/CnC.py lines 138-170, select_followup: walk the candidate list
and, for the selected bullet only, stamp LAST_FOLLOWUP_TIME := now and
BULLET_STATE := "pending" (lines 163-164) and return the follow-up
dict; skipped candidates are left untouched, and with no selection
the call returns None and writes nothing. -/
def select_followup (bullets : List Bullet) (summary : String → Option String)
    (last_followup : Option Followup) (now : ℤ)
    (bs : String → String) (lft : String → ℤ) :
    (String → String) × (String → ℤ) × Option Followup :=
  match select_walk bs lft last_followup now (candidate_list bullets summary) with
  | none => (bs, lft, none)
  | some b =>
      (Function.update bs b.id "pending", Function.update lft b.id now,
        some { bulletId := b.id, text := followup_text b.text })

/-- One evaluation cycle of src/CnC.py run_pipeline (lines 194-209):
recompute coverage over all bullets, fold in the confidence signal,
then select at most one follow-up; last_followup is replaced only when
a follow-up is actually emitted (line 208).  Returns the next engine
state together with the emitted follow-up. -/
def run_cycle (bullets : List Bullet) (c : CycleInput) (now : ℤ)
    (s : EngineState) : EngineState × Option Followup :=
  let r := recompute_coverage_with_gemini bullets c.covReply s.bulletState
  let bs2 := update_states c.confReply s.lastFollowup r.1
  let sel := select_followup bullets r.2 s.lastFollowup now bs2 s.lastFollowupTime
  ({ bulletState := sel.1
     lastFollowupTime := sel.2.1
     lastFollowup := match sel.2.2 with
       | some f => some f
       | none => s.lastFollowup }, sel.2.2)

/-- A session run at the engine level: the evaluation cycles in order,
each with its oracle replies and its wall-clock time. -/
def run_cycles (bullets : List Bullet) :
    List (CycleInput × ℤ) → EngineState → EngineState
  | [], s => s
  | (c, now) :: rest, s => run_cycles bullets rest (run_cycle bullets c now s).1

/-- The state of run_pipeline's while loop (src/CnC.py lines 178-215):
the drain buffer, the persistent transcript log, the last_time stamp
and the engine state. -/
structure PipeState where
  buffer : List String
  fullTranscript : List String
  lastTime : ℤ
  engine : EngineState

/-- src/CnC.py lines 178-180: the loop enters with an empty buffer, an
empty transcript, last_time = the start time, and the initial engine
state. -/
def init_pipe (t0 : ℤ) : PipeState :=
  { buffer := [], fullTranscript := [], lastTime := t0, engine := init_state }

/-- One iteration of run_pipeline's while loop (src/CnC.py lines
182-215) on receiving a fragment at time now, with c the oracle
replies the cycle would consume.  The fragment is appended to the
buffer and the transcript (lines 184-185); an evaluation runs when
now - last_time > 20 or the buffer holds at least 3 fragments (line
189), after which any emitted follow-up is logged (line 209) and the
buffer cleared (line 214).  Line 215 sets last_time := now on every
iteration, whether or not an evaluation ran. -/
def pipeline_step (bullets : List Bullet) (frag : String) (now : ℤ)
    (c : CycleInput) (p : PipeState) : PipeState :=
  let buffer := p.buffer ++ [frag]
  let fullT := p.fullTranscript ++ [frag]
  if now - p.lastTime > 20 ∨ 3 ≤ buffer.length then
    let out := run_cycle bullets c now p.engine
    let fullT2 := match out.2 with
      | some f => fullT ++ ["[FOLLOW-UP] " ++ f.text]
      | none => fullT
    { buffer := [], fullTranscript := fullT2, lastTime := now, engine := out.1 }
  else
    { buffer := buffer, fullTranscript := fullT, lastTime := now, engine := p.engine }

/-- The six bullet states named by the spec's data model. -/
def STATE_ENUM : List String :=
  ["uncovered", "pending", "covered", "skipped", "partial", "incomplete"]

/-- A coverage-reply assignment for the three demo bullet ids, used to
build concrete evaluation cycles. -/
def covReplies (v1 v2 v3 : String) : String → Reply := fun bid =>
  if bid = "b1" then some (some v1)
  else if bid = "b2" then some (some v2)
  else some (some v3)

/-- A concrete evaluation cycle input: coverage verdicts for the three
demo bullets and one confidence verdict. -/
def mkCycle (v1 v2 v3 conf : String) : CycleInput :=
  { covReply := covReplies v1 v2 v3, confReply := some (some conf) }

/-- After recompute_coverage_with_gemini's loop, a bullet id that
occurs in the list holds its fresh verdict and any other id keeps its
prior state. -/
lemma recompute_fold_fst (cov : String → Reply) (x : String) :
    ∀ (bullets : List Bullet) (bs : String → String) (sm : String → Option String),
      (recompute_fold cov bullets bs sm).1 x =
        if x ∈ bullets.map Bullet.id then classify_coverage_gemini (cov x) else bs x := by
  intro bullets
  induction bullets with
  | nil => intro bs sm; simp [recompute_fold]
  | cons b rest ih =>
      intro bs sm
      simp only [recompute_fold]
      rw [ih]
      by_cases hx : x ∈ rest.map Bullet.id
      · simp [hx]
      · by_cases hxb : x = b.id
        · simp [hx, hxb, Function.update_apply]
        · simp [hx, hxb, Function.update_apply]

/-- The summary returned by recompute_coverage_with_gemini's loop maps
each listed bullet id to its fresh verdict and any other id to its
prior entry. -/
lemma recompute_fold_snd (cov : String → Reply) (x : String) :
    ∀ (bullets : List Bullet) (bs : String → String) (sm : String → Option String),
      (recompute_fold cov bullets bs sm).2 x =
        if x ∈ bullets.map Bullet.id then some (classify_coverage_gemini (cov x)) else sm x := by
  intro bullets
  induction bullets with
  | nil => intro bs sm; simp [recompute_fold]
  | cons b rest ih =>
      intro bs sm
      simp only [recompute_fold]
      rw [ih]
      by_cases hx : x ∈ rest.map Bullet.id
      · simp [hx]
      · by_cases hxb : x = b.id
        · simp [hx, hxb, Function.update_apply]
        · simp [hx, hxb, Function.update_apply]

/-- update_states writes only at the outstanding follow-up's bullet
id: every other id keeps its state. -/
lemma update_states_ne {conf : Reply} {last_followup : Option Followup}
    {bs : String → String} {x : String}
    (h : ∀ f, last_followup = some f → ¬ f.bulletId = x) :
    update_states conf last_followup bs x = bs x := by
  cases last_followup with
  | none => rfl
  | some f =>
      have hx : ¬ x = f.bulletId := fun hh => h f rfl hh.symm
      simp only [update_states]
      split_ifs <;> simp [Function.update_apply, hx]

/-- update_states leaves a "covered" state alone unless the
outstanding follow-up targets that bullet and the confidence verdict
is "uncertain" or "does_not_know". -/
lemma update_states_covered {conf : Reply} {last_followup : Option Followup}
    {bs : String → String} {x : String} (hx : bs x = "covered")
    (hconf : ∀ f, last_followup = some f → f.bulletId = x →
      detect_uncertainty_gemini conf ≠ "uncertain" ∧
      detect_uncertainty_gemini conf ≠ "does_not_know") :
    update_states conf last_followup bs x = "covered" := by
  cases last_followup with
  | none => exact hx
  | some f =>
      by_cases hfx : f.bulletId = x
      · obtain ⟨h1, h2⟩ := hconf f rfl hfx
        subst hfx
        have hnk : ¬ (detect_uncertainty_gemini conf = "knows" ∧ ¬ bs f.bulletId = "covered") :=
          fun hk => hk.2 hx
        simp only [update_states]
        rw [if_neg h2, if_neg h1, if_neg hnk]
        exact hx
      · rw [update_states_ne (fun f' hf' => by cases hf'; exact hfx)]
        exact hx

/-- A member of the candidate list is a session bullet whose summary
verdict is "partial" or "incomplete". -/
lemma mem_candidate_list {bullets : List Bullet} {summary : String → Option String}
    {b : Bullet} (h : b ∈ candidate_list bullets summary) :
    b ∈ bullets ∧ (summary b.id = some "partial" ∨ summary b.id = some "incomplete") := by
  rcases List.mem_append.1 h with h' | h' <;>
    rcases List.mem_filter.1 h' with ⟨hm, hp⟩
  · exact ⟨hm, Or.inl (by simpa using hp)⟩
  · exact ⟨hm, Or.inr (by simpa using hp)⟩

/-- The selection walk is the first-match scan of the candidate
list. -/
lemma select_walk_eq_find (bs : String → String) (lft : String → ℤ)
    (last_followup : Option Followup) (now : ℤ) (l : List Bullet) :
    select_walk bs lft last_followup now l = l.find? (eligible bs lft last_followup now) := by
  induction l with
  | nil => rfl
  | cons b rest ih =>
      by_cases h : eligible bs lft last_followup now b = true
      · simp [select_walk, List.find?_cons, h]
      · rw [Bool.not_eq_true] at h
        simp [select_walk, List.find?_cons, h, ih]

/-- A bullet returned by the selection walk is a candidate and passes
all three guards. -/
lemma select_walk_eq_some {bs : String → String} {lft : String → ℤ}
    {last_followup : Option Followup} {now : ℤ} {l : List Bullet} {b : Bullet}
    (h : select_walk bs lft last_followup now l = some b) :
    b ∈ l ∧ eligible bs lft last_followup now b = true := by
  rw [select_walk_eq_find] at h
  exact ⟨List.mem_of_find?_eq_some h, List.find?_some h⟩

/-- When every candidate fails its guards the walk returns none. -/
lemma select_walk_eq_none {bs : String → String} {lft : String → ℤ}
    {last_followup : Option Followup} {now : ℤ} {l : List Bullet}
    (h : ∀ b ∈ l, eligible bs lft last_followup now b = false) :
    select_walk bs lft last_followup now l = none := by
  induction l with
  | nil => rfl
  | cons b rest ih =>
      have hb := h b (List.mem_cons_self b rest)
      simp only [select_walk, hb]
      exact ih (fun b' hb' => h b' (List.mem_cons_of_mem b hb'))

/-- The first guard of the walk: the selected bullet's state is
schedulable. -/
lemma eligible_state {bs : String → String} {lft : String → ℤ}
    {last_followup : Option Followup} {now : ℤ} {b : Bullet}
    (h : eligible bs lft last_followup now b = true) :
    bs b.id ∈ (["uncovered", "pending", "partial", "incomplete"] : List String) := by
  simp only [eligible, Bool.and_eq_true, decide_eq_true_eq] at h
  exact h.1.1

/-- The second guard of the walk: the selected bullet is not the
immediately preceding follow-up's bullet. -/
lemma eligible_not_last {bs : String → String} {lft : String → ℤ}
    {f : Followup} {now : ℤ} {b : Bullet}
    (h : eligible bs lft (some f) now b = true) : ¬ f.bulletId = b.id := by
  simp only [eligible, Bool.and_eq_true, Bool.not_eq_eq_eq_not, Bool.not_true,
    decide_eq_false_iff_not] at h
  exact h.1.2

/-- The third guard of the walk: the selected bullet's cooldown has
elapsed. -/
lemma eligible_cooldown {bs : String → String} {lft : String → ℤ}
    {last_followup : Option Followup} {now : ℤ} {b : Bullet}
    (h : eligible bs lft last_followup now b = true) :
    FOLLOWUP_COOLDOWN ≤ now - lft b.id := by
  simp only [eligible, Bool.and_eq_true, Bool.not_eq_eq_eq_not, Bool.not_true,
    decide_eq_false_iff_not, not_lt] at h
  exact h.2

/-- An emitted follow-up comes from a bullet the walk selected: its
target is that bullet's id, and the two writes of lines 163-164 are
the only state changes. -/
lemma select_followup_eq_some {bullets : List Bullet} {summary : String → Option String}
    {last_followup : Option Followup} {now : ℤ} {bs : String → String} {lft : String → ℤ}
    {g : Followup}
    (h : (select_followup bullets summary last_followup now bs lft).2.2 = some g) :
    ∃ b, select_walk bs lft last_followup now (candidate_list bullets summary) = some b ∧
      g.bulletId = b.id ∧
      (select_followup bullets summary last_followup now bs lft).1 =
        Function.update bs b.id "pending" ∧
      (select_followup bullets summary last_followup now bs lft).2.1 =
        Function.update lft b.id now := by
  cases hw : select_walk bs lft last_followup now (candidate_list bullets summary) with
  | none => simp [select_followup, hw] at h
  | some b =>
      refine ⟨b, rfl, ?_, ?_, ?_⟩ <;> simp [select_followup, hw] at h ⊢
      exact congrArg Followup.bulletId h.symm

/-- When the cycle's coverage verdict for a session bullet is
"covered" and no confidence override applies to it, the bullet's
state at the end of the cycle is "covered". -/
lemma covered_after_cycle (bullets : List Bullet) (c : CycleInput) (now : ℤ)
    (s : EngineState) (b : Bullet) (hb : b ∈ bullets)
    (hcov : classify_coverage_gemini (c.covReply b.id) = "covered")
    (hconf : ∀ f, s.lastFollowup = some f → f.bulletId = b.id →
      detect_uncertainty_gemini c.confReply ≠ "uncertain" ∧
      detect_uncertainty_gemini c.confReply ≠ "does_not_know") :
    (run_cycle bullets c now s).1.bulletState b.id = "covered" := by
  have hmem : b.id ∈ bullets.map Bullet.id := List.mem_map_of_mem Bullet.id hb
  have hbs1 : (recompute_coverage_with_gemini bullets c.covReply s.bulletState).1 b.id
      = "covered" := by
    rw [recompute_coverage_with_gemini, recompute_fold_fst, if_pos hmem, hcov]
  have hsm : (recompute_coverage_with_gemini bullets c.covReply s.bulletState).2 b.id
      = some "covered" := by
    rw [recompute_coverage_with_gemini, recompute_fold_snd, if_pos hmem, hcov]
  have hbs2 : update_states c.confReply s.lastFollowup
      (recompute_coverage_with_gemini bullets c.covReply s.bulletState).1 b.id
      = "covered" := update_states_covered hbs1 hconf
  simp only [run_cycle]
  cases hw : select_walk
      (update_states c.confReply s.lastFollowup
        (recompute_coverage_with_gemini bullets c.covReply s.bulletState).1)
      s.lastFollowupTime s.lastFollowup now
      (candidate_list bullets (recompute_coverage_with_gemini bullets c.covReply s.bulletState).2) with
  | none => simp [select_followup, hw, hbs2]
  | some b' =>
      have hmem' := (select_walk_eq_some hw).1
      have hb' := (mem_candidate_list hmem').2
      have hne : ¬ b.id = b'.id := by
        intro he
        rw [← he, hsm] at hb'
        rcases hb' with h' | h' <;> exact absurd (Option.some.inj h') (by decide)
      simp [select_followup, hw, Function.update_noteq hne, hbs2]

/-- C2 counterexample trace: an evaluation cycle at t = 100 issues a
follow-up for b1; in the next cycle at t = 105 the coverage oracle
returns "covered" for b1 while the confidence oracle returns
"uncertain". -/
def c2trace : List (CycleInput × ℤ) :=
  [(mkCycle "incomplete" "incomplete" "incomplete" "knows", 100),
   (mkCycle "covered" "covered" "covered" "uncertain", 105)]

/-- C2: the claim fails on the code.  In the second cycle of
`c2trace` the coverage verdict for b1 is "covered", yet because the
outstanding follow-up targets b1 and the confidence verdict is
"uncertain", update_states (src/CnC.py line 134) overwrites the fresh
"covered" with "pending": the confidence signal does override a
covered verdict. -/
theorem C2_counterexample :
    classify_coverage_gemini ((mkCycle "covered" "covered" "covered" "uncertain").covReply "b1")
        = "covered" ∧
      (run_cycles MODEL_ANSWER c2trace init_state).bulletState "b1" = "pending" := by
  constructor
  · rfl
  · decide

/-- C2 (amended): if the coverage verdict for a session bullet is
"covered" in a cycle, its state at the end of that cycle is "covered"
unless a follow-up targeting that very bullet is outstanding and the
confidence verdict is "uncertain" or "does_not_know" (which overwrite
it with "pending" or "skipped"); the "knows" verdict never overrides
a covered verdict. -/
theorem C2_coverage_precedence (bullets : List Bullet) (c : CycleInput) (now : ℤ)
    (s : EngineState) (b : Bullet) (hb : b ∈ bullets)
    (hcov : classify_coverage_gemini (c.covReply b.id) = "covered")
    (hconf : ∀ f, s.lastFollowup = some f → f.bulletId = b.id →
      detect_uncertainty_gemini c.confReply ≠ "uncertain" ∧
      detect_uncertainty_gemini c.confReply ≠ "does_not_know") :
    (run_cycle bullets c now s).1.bulletState b.id = "covered" :=
  covered_after_cycle bullets c now s b hb hcov hconf

/-- C2 witness: a concrete cycle in which b1's coverage verdict is
"covered" while a follow-up for b1 is outstanding and the confidence
verdict is "knows": the end-of-cycle state is "covered". -/
theorem C2_witness :
    (run_cycle MODEL_ANSWER (mkCycle "covered" "covered" "covered" "knows") 105
        (run_cycle MODEL_ANSWER (mkCycle "incomplete" "incomplete" "incomplete" "knows") 100
          init_state).1).1.bulletState "b1" = "covered" :=
  C2_coverage_precedence MODEL_ANSWER (mkCycle "covered" "covered" "covered" "knows") 105
    (run_cycle MODEL_ANSWER (mkCycle "incomplete" "incomplete" "incomplete" "knows") 100
      init_state).1
    ⟨"b1", "Quicksort average-case is O(n log n)"⟩ (by decide) (by decide)
    (fun f _ _ => by decide)

/-- C1 counterexample trace: at t = 5 the coverage oracle returns
"covered" for every bullet; at t = 10 it returns "partial" for b1. -/
def c1trace : List (CycleInput × ℤ) :=
  [(mkCycle "covered" "covered" "covered" "knows", 5)]

/-- The second cycle of the C1 counterexample. -/
def c1cycle2 : CycleInput × ℤ := (mkCycle "partial" "covered" "covered" "knows", 10)

/-- C1: the claim fails on the code.  b1's state is "covered" at the
end of the first cycle, yet recompute_coverage_with_gemini (src/CnC.py
line 120) re-evaluates every bullet, covered ones included, and
overwrites b1's state with the next cycle's "partial" verdict: covered
is not frozen. -/
theorem C1_counterexample :
    (run_cycles MODEL_ANSWER c1trace init_state).bulletState "b1" = "covered" ∧
      (run_cycles MODEL_ANSWER (c1trace ++ [c1cycle2]) init_state).bulletState "b1"
        = "partial" := by
  constructor <;> decide

/-- C1 (amended): once a session bullet's state is "covered" it stays
"covered" through every later cycle whose coverage verdict for that
bullet is again "covered" and whose confidence verdict is neither
"uncertain" nor "does_not_know"; without these conditions a later
cycle can change the state, since re-evaluation visits covered
bullets and the confidence step can override them. -/
theorem C1_covered_persistence (bullets : List Bullet) (b : Bullet) (hb : b ∈ bullets) :
    ∀ (trace : List (CycleInput × ℤ)) (s : EngineState),
      s.bulletState b.id = "covered" →
      (∀ p ∈ trace, classify_coverage_gemini (p.1.covReply b.id) = "covered" ∧
        detect_uncertainty_gemini p.1.confReply ≠ "uncertain" ∧
        detect_uncertainty_gemini p.1.confReply ≠ "does_not_know") →
      (run_cycles bullets trace s).bulletState b.id = "covered" := by
  intro trace
  induction trace with
  | nil => intro s hs _; exact hs
  | cons p rest ih =>
      intro s hs h
      obtain ⟨hcov, hconf⟩ := h p (List.mem_cons_self p rest)
      have hstep : (run_cycle bullets p.1 p.2 s).1.bulletState b.id = "covered" :=
        covered_after_cycle bullets p.1 p.2 s b hb hcov (fun _ _ _ => hconf)
      exact ih _ hstep (fun q hq => h q (List.mem_cons_of_mem p hq))

/-- C1 witness: b1 is "covered" after one all-covered cycle and stays
"covered" through a later cycle that again returns "covered" for it
with a "knows" confidence verdict. -/
theorem C1_witness :
    (run_cycles MODEL_ANSWER [(mkCycle "covered" "incomplete" "incomplete" "knows", 6)]
        (run_cycle MODEL_ANSWER (mkCycle "covered" "covered" "covered" "knows") 5
          init_state).1).bulletState "b1" = "covered" :=
  C1_covered_persistence MODEL_ANSWER
    ⟨"b1", "Quicksort average-case is O(n log n)"⟩ (by decide)
    [(mkCycle "covered" "incomplete" "incomplete" "knows", 6)]
    (run_cycle MODEL_ANSWER (mkCycle "covered" "covered" "covered" "knows") 5 init_state).1
    (by decide)
    (fun p hp => by
      have : p = (mkCycle "covered" "incomplete" "incomplete" "knows", 6) := by
        simpa using hp
      subst this
      exact ⟨by decide, by decide, by decide⟩)

/-- C3 counterexample, first two cycles: at t = 100 a follow-up for b1
is issued; at t = 105 the confidence verdict is "does_not_know", so b1
becomes "skipped" and the follow-up moves on to b2. -/
def c3traceAB : List (CycleInput × ℤ) :=
  [(mkCycle "incomplete" "incomplete" "covered" "knows", 100),
   (mkCycle "incomplete" "incomplete" "covered" "does_not_know", 105)]

/-- C3 counterexample, third cycle at t = 140: b1's verdict is again
"incomplete". -/
def c3cycleC : CycleInput := mkCycle "incomplete" "covered" "covered" "knows"

/-- C3: the exclusion half of the claim fails on the code.  After b1
is "skipped" at the end of the second cycle, the third cycle's
coverage re-evaluation overwrites the skipped state, b1 re-enters the
scheduler's candidate list, and the scheduler even emits a new
follow-up targeting b1. -/
theorem C3_counterexample :
    (run_cycles MODEL_ANSWER c3traceAB init_state).bulletState "b1" = "skipped" ∧
      "b1" ∈ (candidate_list MODEL_ANSWER
          (recompute_coverage_with_gemini MODEL_ANSWER c3cycleC.covReply
            (run_cycles MODEL_ANSWER c3traceAB init_state).bulletState).2).map Bullet.id ∧
      ((run_cycle MODEL_ANSWER c3cycleC 140
          (run_cycles MODEL_ANSWER c3traceAB init_state)).2).map Followup.bulletId
        = some "b1" := by
  refine ⟨by decide, by decide, by decide⟩

/-- C3 (amended): when a follow-up is outstanding for bullet b, b's
coverage verdict is not "covered" and the confidence verdict is
"does_not_know", b's state is "skipped" at the end of that cycle and
the scheduler does not select b in that cycle; the skipped state is
not persistent, though: the next cycle's coverage re-evaluation
overwrites it, so b can re-enter later candidate lists and receive
later follow-ups. -/
theorem C3_skipped_cycle (bullets : List Bullet) (c : CycleInput) (now : ℤ)
    (s : EngineState) (f : Followup)
    (hlast : s.lastFollowup = some f)
    (hcov : classify_coverage_gemini (c.covReply f.bulletId) ≠ "covered")
    (hconf : detect_uncertainty_gemini c.confReply = "does_not_know") :
    (run_cycle bullets c now s).1.bulletState f.bulletId = "skipped" ∧
      ∀ g, (run_cycle bullets c now s).2 = some g → g.bulletId ≠ f.bulletId := by
  have hbs2 : update_states c.confReply s.lastFollowup
      (recompute_coverage_with_gemini bullets c.covReply s.bulletState).1 f.bulletId
      = "skipped" := by
    rw [hlast]
    simp only [update_states]
    rw [if_pos hconf, Function.update_same]
  constructor
  · simp only [run_cycle]
    cases hw : select_walk
        (update_states c.confReply s.lastFollowup
          (recompute_coverage_with_gemini bullets c.covReply s.bulletState).1)
        s.lastFollowupTime s.lastFollowup now
        (candidate_list bullets
          (recompute_coverage_with_gemini bullets c.covReply s.bulletState).2) with
    | none => simp [select_followup, hw, hbs2]
    | some b' =>
        have helig := (select_walk_eq_some hw).2
        rw [hlast] at helig
        have hne := eligible_not_last helig
        simp [select_followup, hw, Function.update_noteq hne, hbs2]
  · intro g hg
    simp only [run_cycle] at hg
    obtain ⟨b', hw, hgid, _, _⟩ := select_followup_eq_some hg
    have helig := (select_walk_eq_some hw).2
    rw [hlast] at helig
    rw [hgid]
    exact fun he => (eligible_not_last helig) he.symm

/-- C3 witness: the first two cycles of the counterexample trace seen
through the amended claim — at t = 105 b1 is skipped and the cycle's
follow-up, if any, does not target b1. -/
theorem C3_witness :
    (run_cycle MODEL_ANSWER (mkCycle "incomplete" "incomplete" "covered" "does_not_know") 105
        (run_cycle MODEL_ANSWER (mkCycle "incomplete" "incomplete" "covered" "knows") 100
          init_state).1).1.bulletState "b1" = "skipped" ∧
      ∀ g, (run_cycle MODEL_ANSWER (mkCycle "incomplete" "incomplete" "covered" "does_not_know")
          105 (run_cycle MODEL_ANSWER (mkCycle "incomplete" "incomplete" "covered" "knows") 100
            init_state).1).2 = some g → g.bulletId ≠ "b1" :=
  C3_skipped_cycle MODEL_ANSWER (mkCycle "incomplete" "incomplete" "covered" "does_not_know")
    105
    (run_cycle MODEL_ANSWER (mkCycle "incomplete" "incomplete" "covered" "knows") 100
      init_state).1
    ⟨"b1", followup_text "Quicksort average-case is O(n log n)"⟩
    (by decide) (by decide) (by decide)

/-- An emitted follow-up becomes the pipeline's last_followup
(src/CnC.py line 208). -/
lemma run_cycle_lastFollowup_of_emit {bullets : List Bullet} {c : CycleInput}
    {now : ℤ} {s : EngineState} {g : Followup}
    (h : (run_cycle bullets c now s).2 = some g) :
    (run_cycle bullets c now s).1.lastFollowup = some g := by
  simp only [run_cycle] at h ⊢
  rw [h]

/-- A cycle entered with an outstanding follow-up never emits a new
follow-up for the same bullet (the continue at src/CnC.py line 160). -/
lemma emit_ne_last {bullets : List Bullet} {c : CycleInput} {now : ℤ}
    {s : EngineState} {f g : Followup}
    (hlast : s.lastFollowup = some f)
    (h : (run_cycle bullets c now s).2 = some g) :
    g.bulletId ≠ f.bulletId := by
  simp only [run_cycle] at h
  obtain ⟨b', hw, hgid, _, _⟩ := select_followup_eq_some h
  have helig := (select_walk_eq_some hw).2
  rw [hlast] at helig
  rw [hgid]
  exact fun he => (eligible_not_last helig) he.symm

/-- C5: two consecutive evaluation cycles that each emit a follow-up
target different bullet ids — the second cycle runs with the first
cycle's follow-up as last_followup, and the no-immediate-repeat guard
skips that bullet. -/
theorem C5_no_consecutive_repeat (bullets : List Bullet) (c1 c2 : CycleInput)
    (t1 t2 : ℤ) (s : EngineState) (f g : Followup)
    (h1 : (run_cycle bullets c1 t1 s).2 = some f)
    (h2 : (run_cycle bullets c2 t2 (run_cycle bullets c1 t1 s).1).2 = some g) :
    g.bulletId ≠ f.bulletId :=
  emit_ne_last (run_cycle_lastFollowup_of_emit h1) h2

/-- C5 witness: from the initial state, an all-incomplete cycle at
t = 100 emits a follow-up for b1, and the next all-incomplete cycle
at t = 105 emits one for b2 — distinct targets. -/
theorem C5_witness :
    ({ bulletId := "b2", text := followup_text "Quicksort worst-case is O(n^2)" } :
        Followup).bulletId ≠
      ({ bulletId := "b1", text := followup_text "Quicksort average-case is O(n log n)" } :
        Followup).bulletId :=
  C5_no_consecutive_repeat MODEL_ANSWER
    (mkCycle "incomplete" "incomplete" "incomplete" "knows")
    (mkCycle "incomplete" "incomplete" "incomplete" "knows")
    100 105 init_state
    { bulletId := "b1", text := followup_text "Quicksort average-case is O(n log n)" }
    { bulletId := "b2", text := followup_text "Quicksort worst-case is O(n^2)" }
    (by decide) (by decide)

/-- C6 counterexample, first two cycles: at t = 70 a follow-up for b1
fires (stamping its cooldown), at t = 95 a follow-up for b2 fires. -/
def c6traceAB : List (CycleInput × ℤ) :=
  [(mkCycle "incomplete" "incomplete" "covered" "knows", 70),
   (mkCycle "incomplete" "incomplete" "covered" "uncertain", 95)]

/-- C6 counterexample, third cycle's oracle replies. -/
def c6cycleC : CycleInput := mkCycle "incomplete" "covered" "covered" "knows"

/-- C6: the strict reading of the claim fails on the code.  At t = 100
the scheduler emits a follow-up for b1 although exactly 30 seconds —
not more — have elapsed since b1's last_followup_time of 70: the guard
at src/CnC.py line 161 rejects only elapsed < cooldown, so elapsed
times equal to the cooldown are accepted. -/
theorem C6_counterexample :
    ((run_cycle MODEL_ANSWER c6cycleC 100
          (run_cycles MODEL_ANSWER c6traceAB init_state)).2).map Followup.bulletId
        = some "b1" ∧
      100 - (run_cycles MODEL_ANSWER c6traceAB init_state).lastFollowupTime "b1"
        = FOLLOWUP_COOLDOWN ∧
      ¬ FOLLOWUP_COOLDOWN <
          100 - (run_cycles MODEL_ANSWER c6traceAB init_state).lastFollowupTime "b1" := by
  refine ⟨by decide, by decide, by decide⟩

/-- C6 (amended): every follow-up emitted at time now targets a bullet
whose elapsed time since last_followup_time is at least the 30-second
cooldown (elapsed equal to the cooldown is allowed); a bullet still
strictly inside its cooldown window is never selected — when every
candidate is inside its window, even a sole candidate, the cycle
returns none. -/
theorem C6_cooldown (bullets : List Bullet) (summary : String → Option String)
    (last_followup : Option Followup) (now : ℤ) (bs : String → String) (lft : String → ℤ) :
    (∀ g, (select_followup bullets summary last_followup now bs lft).2.2 = some g →
        FOLLOWUP_COOLDOWN ≤ now - lft g.bulletId) ∧
      ((∀ b ∈ candidate_list bullets summary, now - lft b.id < FOLLOWUP_COOLDOWN) →
        (select_followup bullets summary last_followup now bs lft).2.2 = none) := by
  constructor
  · intro g hg
    obtain ⟨b', hw, hgid, _, _⟩ := select_followup_eq_some hg
    have helig := (select_walk_eq_some hw).2
    rw [hgid]
    exact eligible_cooldown helig
  · intro h
    have hw : select_walk bs lft last_followup now (candidate_list bullets summary) = none :=
      select_walk_eq_none (fun b hb => by simp [eligible, h b hb])
    simp [select_followup, hw]

/-- Summary for the C6 witness: b3 is the only candidate. -/
def c6sum : String → Option String :=
  fun bid => if bid = "b3" then some "partial" else none

/-- C6 witness, Scenario D: at t = 10 the sole candidate b3 is still
inside its cooldown window, so the scheduler returns none. -/
theorem C6_witness :
    (select_followup MODEL_ANSWER c6sum none 10 (fun _ => "uncovered") (fun _ => 0)).2.2
      = none :=
  (C6_cooldown MODEL_ANSWER c6sum none 10 (fun _ => "uncovered") (fun _ => 0)).2 (by decide)

/-- The emitted follow-up is the first-match scan of the candidate
list, wrapped into the follow-up record. -/
lemma select_followup_snd (bullets : List Bullet) (summary : String → Option String)
    (last_followup : Option Followup) (now : ℤ) (bs : String → String) (lft : String → ℤ) :
    (select_followup bullets summary last_followup now bs lft).2.2 =
      ((candidate_list bullets summary).find? (eligible bs lft last_followup now)).map
        (fun b => { bulletId := b.id, text := followup_text b.text }) := by
  cases hf : (candidate_list bullets summary).find? (eligible bs lft last_followup now) with
  | none => simp [select_followup, select_walk_eq_find, hf]
  | some b => simp [select_followup, select_walk_eq_find, hf]

/-- C7: the candidate list is exactly the partial-verdict bullets in
declaration order followed by the incomplete-verdict ones in
declaration order; every candidate's verdict is "partial" or
"incomplete" (never "covered", and "skipped" is not a coverage
verdict); the selector returns the first candidate passing the state,
no-immediate-repeat and cooldown guards; a selected bullet's state is
never "covered" or "skipped"; at most one follow-up is returned; and
when some partial-verdict bullet is eligible the selection is a
partial-verdict bullet. -/
theorem C7_candidate_order (bullets : List Bullet) (summary : String → Option String)
    (last_followup : Option Followup) (now : ℤ) (bs : String → String) (lft : String → ℤ) :
    (candidate_list bullets summary =
        bullets.filter (fun b => summary b.id = some "partial") ++
          bullets.filter (fun b => summary b.id = some "incomplete")) ∧
      (∀ b ∈ candidate_list bullets summary,
        summary b.id = some "partial" ∨ summary b.id = some "incomplete") ∧
      ((select_followup bullets summary last_followup now bs lft).2.2 =
        ((candidate_list bullets summary).find? (eligible bs lft last_followup now)).map
          (fun b => { bulletId := b.id, text := followup_text b.text })) ∧
      (∀ g, (select_followup bullets summary last_followup now bs lft).2.2 = some g →
        bs g.bulletId ≠ "covered" ∧ bs g.bulletId ≠ "skipped") ∧
      (∀ g g', (select_followup bullets summary last_followup now bs lft).2.2 = some g →
        (select_followup bullets summary last_followup now bs lft).2.2 = some g' → g = g') ∧
      ((∃ b ∈ bullets, summary b.id = some "partial" ∧
          eligible bs lft last_followup now b = true) →
        ∃ g, (select_followup bullets summary last_followup now bs lft).2.2 = some g ∧
          summary g.bulletId = some "partial") := by
  refine ⟨rfl, fun b hb => (mem_candidate_list hb).2,
    select_followup_snd bullets summary last_followup now bs lft, ?_, ?_, ?_⟩
  · intro g hg
    obtain ⟨b', hw, hgid, _, _⟩ := select_followup_eq_some hg
    have hst : bs b'.id = "uncovered" ∨ bs b'.id = "pending" ∨ bs b'.id = "partial" ∨
        bs b'.id = "incomplete" := by
      simpa using eligible_state (select_walk_eq_some hw).2
    rw [hgid]
    rcases hst with h | h | h | h <;> rw [h] <;> exact ⟨by decide, by decide⟩
  · intro g g' hg hg'
    rw [hg] at hg'
    exact Option.some.inj hg'
  · rintro ⟨b, hbmem, hsum, helig⟩
    have hbf : b ∈ bullets.filter (fun b => summary b.id = some "partial") :=
      List.mem_filter.2 ⟨hbmem, by simp [hsum]⟩
    have hsome : ((bullets.filter (fun b => summary b.id = some "partial")).find?
        (eligible bs lft last_followup now)).isSome :=
      List.find?_isSome.2 ⟨b, hbf, helig⟩
    obtain ⟨a, ha⟩ := Option.isSome_iff_exists.1 hsome
    have hafind : (candidate_list bullets summary).find?
        (eligible bs lft last_followup now) = some a := by
      rw [candidate_list, List.find?_append, ha]
      rfl
    have hasum : summary a.id = some "partial" := by
      simpa using (List.mem_filter.1 (List.mem_of_find?_eq_some ha)).2
    refine ⟨{ bulletId := a.id, text := followup_text a.text }, ?_, hasum⟩
    rw [select_followup_snd, hafind]
    rfl

/-- Summary for the C7 witness, Scenario A: b2's verdict is "partial",
the others "incomplete". -/
def c7sum : String → Option String :=
  fun bid => if bid = "b2" then some "partial" else some "incomplete"

/-- C7 witness, Scenario A: all three bullets are "uncovered", b2's
verdict is "partial" and the others "incomplete"; the scheduler picks
a partial-verdict bullet (b2) over the incomplete ones. -/
theorem C7_witness :
    ∃ g, (select_followup MODEL_ANSWER c7sum none 100
        (fun _ => "uncovered") (fun _ => 0)).2.2 = some g ∧
      c7sum g.bulletId = some "partial" :=
  (C7_candidate_order MODEL_ANSWER c7sum none 100
      (fun _ => "uncovered") (fun _ => 0)).2.2.2.2.2
    ⟨⟨"b2", "Quicksort worst-case is O(n^2)"⟩, by decide, by decide, by decide⟩

/-- A coverage verdict within the oracle's declared contract is one of
the spec's enum values. -/
lemma mem_state_enum_of_contract {s : String}
    (h : s ∈ (["covered", "partial", "incomplete"] : List String)) : s ∈ STATE_ENUM := by
  rcases h with _ | ⟨_, _ | ⟨_, h⟩⟩
  · decide
  · decide
  · rcases h with _ | ⟨_, h⟩
    · decide
    · cases h

/-- Updating one entry with an enum value preserves the all-enum
invariant. -/
lemma update_mem_state_enum {f : String → String} {a v : String} {x : String}
    (hf : ∀ y, f y ∈ STATE_ENUM) (hv : v ∈ STATE_ENUM) :
    Function.update f a v x ∈ STATE_ENUM := by
  rw [Function.update_apply]
  split_ifs
  · exact hv
  · exact hf x

/-- update_states writes only "skipped", "pending" or "uncovered". -/
lemma update_states_mem_state_enum {conf : Reply} {last_followup : Option Followup}
    {bs : String → String} (hbs : ∀ y, bs y ∈ STATE_ENUM) :
    ∀ y, update_states conf last_followup bs y ∈ STATE_ENUM := by
  intro y
  cases last_followup with
  | none => exact hbs y
  | some f =>
      simp only [update_states]
      split_ifs <;> first
        | exact update_mem_state_enum hbs (by decide)
        | exact hbs y

/-- Coverage re-evaluation writes only the oracle's verdicts: if those
are within the contract, the all-enum invariant is preserved. -/
lemma recompute_mem_state_enum {bullets : List Bullet} {cov : String → Reply}
    {bs : String → String} (hbs : ∀ y, bs y ∈ STATE_ENUM)
    (hc : ∀ y, classify_coverage_gemini (cov y) ∈
      (["covered", "partial", "incomplete"] : List String)) :
    ∀ y, (recompute_coverage_with_gemini bullets cov bs).1 y ∈ STATE_ENUM := by
  intro y
  rw [recompute_coverage_with_gemini, recompute_fold_fst]
  split_ifs
  · exact mem_state_enum_of_contract (hc y)
  · exact hbs y

/-- The scheduler writes only "pending". -/
lemma select_followup_mem_state_enum {bullets : List Bullet}
    {summary : String → Option String} {last_followup : Option Followup} {now : ℤ}
    {bs : String → String} {lft : String → ℤ} (hbs : ∀ y, bs y ∈ STATE_ENUM) :
    ∀ y, (select_followup bullets summary last_followup now bs lft).1 y ∈ STATE_ENUM := by
  intro y
  cases hw : select_walk bs lft last_followup now (candidate_list bullets summary) with
  | none =>
      simp only [select_followup, hw]
      exact hbs y
  | some b =>
      simp only [select_followup, hw]
      exact update_mem_state_enum hbs (by decide)

/-- One evaluation cycle with contract-conforming coverage replies
preserves the all-enum invariant. -/
lemma run_cycle_mem_state_enum (bullets : List Bullet) (c : CycleInput) (now : ℤ)
    (s : EngineState) (hs : ∀ y, s.bulletState y ∈ STATE_ENUM)
    (hc : ∀ y, classify_coverage_gemini (c.covReply y) ∈
      (["covered", "partial", "incomplete"] : List String)) :
    ∀ y, (run_cycle bullets c now s).1.bulletState y ∈ STATE_ENUM :=
  select_followup_mem_state_enum (update_states_mem_state_enum (recompute_mem_state_enum hs hc))

/-- C8 counterexample: the code stores the oracle's status string
verbatim (src/CnC.py lines 102 and 120), so a reply
`{"status": "banana"}` puts the out-of-enum value "banana" into
BULLET_STATE. -/
theorem C8_counterexample :
    (run_cycle MODEL_ANSWER
        { covReply := fun _ => some (some "banana"), confReply := some (some "knows") } 5
        init_state).1.bulletState "b1" = "banana" ∧
      ¬ "banana" ∈ STATE_ENUM := by
  refine ⟨by decide, by decide⟩

/-- C8 (amended): every bullet state reachable from the initial state
is one of the six enum values provided every coverage reply's parsed
status stays within the oracle's declared contract {covered, partial,
incomplete}; parse failures fall back to "incomplete" (inside the
enum), confidence handling writes only "skipped"/"pending"/
"uncovered", and the scheduler writes only "pending" — but a coverage
reply carrying an out-of-contract status string is stored verbatim
and escapes the enum. -/
theorem C8_enum_closed (bullets : List Bullet) (trace : List (CycleInput × ℤ))
    (hcov : ∀ p ∈ trace, ∀ x : String, classify_coverage_gemini (p.1.covReply x) ∈
      (["covered", "partial", "incomplete"] : List String)) :
    ∀ x, (run_cycles bullets trace init_state).bulletState x ∈ STATE_ENUM := by
  suffices h : ∀ (t : List (CycleInput × ℤ)) (s : EngineState),
      (∀ y, s.bulletState y ∈ STATE_ENUM) →
      (∀ p ∈ t, ∀ x : String, classify_coverage_gemini (p.1.covReply x) ∈
        (["covered", "partial", "incomplete"] : List String)) →
      ∀ x, (run_cycles bullets t s).bulletState x ∈ STATE_ENUM by
    exact h trace init_state (fun y => by show "uncovered" ∈ STATE_ENUM; decide) hcov
  intro t
  induction t with
  | nil => intro s hs _ x; exact hs x
  | cons p rest ih =>
      intro s hs hp x
      exact ih (run_cycle bullets p.1 p.2 s).1
        (run_cycle_mem_state_enum bullets p.1 p.2 s hs (hp p (List.mem_cons_self p rest)))
        (fun q hq => hp q (List.mem_cons_of_mem p hq)) x

/-- C8 witness: after one contract-conforming cycle, b1's state is
one of the enum values. -/
theorem C8_witness :
    (run_cycles MODEL_ANSWER [(mkCycle "covered" "partial" "incomplete" "knows", 5)]
        init_state).bulletState "b1" ∈ STATE_ENUM :=
  C8_enum_closed MODEL_ANSWER [(mkCycle "covered" "partial" "incomplete" "knows", 5)]
    (fun p hp x => by
      have hpe : p = (mkCycle "covered" "partial" "incomplete" "knows", 5) := by simpa using hp
      subst hpe
      simp only [mkCycle, covReplies]
      split_ifs <;> decide)
    "b1"

/-- Modelled from the spec: the final report of `CnCSession.finalize`.
src/test_pipeline.py imports CnCSession from the CnC module, but that
class is not among the repository's files; per the spec the report
carries the score and the covered and missed point lists. -/
structure Report where
  score : ℚ
  covered : List String
  missed : List String

/-- Modelled from the spec: `CnCSession.finalize` (imported by
src/test_pipeline.py line 31; its definition is not among the
repository's files).  Per the spec it computes
score = covered_count / total_bullets * 100, 0 when there are no
bullets, and returns the covered and missed point lists. -/
def finalize (bullets : List Bullet) (bs : String → String) : Report :=
  let coveredIds := (bullets.filter (fun b => bs b.id = "covered")).map Bullet.id
  let missedIds := (bullets.filter (fun b => ¬ bs b.id = "covered")).map Bullet.id
  { score := if bullets.length = 0 then 0
      else ((coveredIds.length : ℚ) / (bullets.length : ℚ)) * 100
    covered := coveredIds
    missed := missedIds }

/-- C9: finalize's score is covered_count / total_bullets * 100, and
on an empty bullet set it is 0 with empty covered and missed lists. -/
theorem C9_finalize_score (bullets : List Bullet) (bs : String → String) :
    ((finalize bullets bs).score =
        if bullets = [] then 0
        else ((bullets.countP (fun b => bs b.id = "covered") : ℚ) / (bullets.length : ℚ)) * 100) ∧
      (finalize [] bs).score = 0 ∧
      (finalize [] bs).covered = [] ∧
      (finalize [] bs).missed = [] := by
  refine ⟨?_, rfl, rfl, rfl⟩
  simp only [finalize, List.length_map]
  by_cases hb : bullets = []
  · subst hb
    simp
  · rw [if_neg hb, if_neg (fun h => hb (List.length_eq_zero.1 h))]
    rw [List.countP_eq_length_filter]

/-- C10: select_followup's only writes are the two stamps on the
bullet it returns: when it returns none, the state map and the
cooldown map are unchanged, and when it returns a follow-up, every
bullet other than the target keeps its state and its cooldown
stamp. -/
theorem C10_select_frame (bullets : List Bullet) (summary : String → Option String)
    (last_followup : Option Followup) (now : ℤ) (bs : String → String) (lft : String → ℤ) :
    ((select_followup bullets summary last_followup now bs lft).2.2 = none →
        (select_followup bullets summary last_followup now bs lft).1 = bs ∧
        (select_followup bullets summary last_followup now bs lft).2.1 = lft) ∧
      (∀ g x, (select_followup bullets summary last_followup now bs lft).2.2 = some g →
        ¬ x = g.bulletId →
        (select_followup bullets summary last_followup now bs lft).1 x = bs x ∧
        (select_followup bullets summary last_followup now bs lft).2.1 x = lft x) := by
  cases hw : select_walk bs lft last_followup now (candidate_list bullets summary) with
  | none =>
      constructor
      · intro _
        exact ⟨by simp [select_followup, hw], by simp [select_followup, hw]⟩
      · intro g x hg _
        rw [select_followup, hw] at hg
        cases hg
  | some b =>
      constructor
      · intro hg
        rw [select_followup, hw] at hg
        cases hg
      · intro g x hg hx
        have hgid : g.bulletId = b.id := by
          rw [select_followup, hw] at hg
          exact congrArg Followup.bulletId (Option.some.inj hg).symm
        rw [hgid] at hx
        exact ⟨by simp [select_followup, hw, Function.update_noteq hx],
          by simp [select_followup, hw, Function.update_noteq hx]⟩

/-- C10 witness: with no candidates nothing changes, and when b2 is
selected, b1's state and cooldown stamp are untouched. -/
theorem C10_witness :
    ((select_followup MODEL_ANSWER (fun _ => none) none 0
          (fun _ => "uncovered") (fun _ => 0)).1 = (fun _ => "uncovered") ∧
        (select_followup MODEL_ANSWER (fun _ => none) none 0
          (fun _ => "uncovered") (fun _ => 0)).2.1 = (fun _ => 0)) ∧
      ((select_followup MODEL_ANSWER c7sum none 100
          (fun _ => "uncovered") (fun _ => 0)).1 "b1" = "uncovered" ∧
        (select_followup MODEL_ANSWER c7sum none 100
          (fun _ => "uncovered") (fun _ => 0)).2.1 "b1" = 0) :=
  ⟨(C10_select_frame MODEL_ANSWER (fun _ => none) none 0
      (fun _ => "uncovered") (fun _ => 0)).1 (by decide),
    (C10_select_frame MODEL_ANSWER c7sum none 100
        (fun _ => "uncovered") (fun _ => 0)).2
      { bulletId := "b2", text := followup_text "Quicksort worst-case is O(n^2)" }
      "b1" (by decide) (by decide)⟩

/-- C4: code behavior at the failing input.  The pipeline starts at
t = 0; fragments arrive at t = 15 and t = 30 and no evaluation has yet
run, so more than 20 seconds have elapsed since the last evaluation
point — yet the code runs no evaluation (the buffer is not drained):
src/CnC.py line 215 resets last_time on every fragment, so the
20-second test at line 189 measures from the previous fragment
(15 seconds) rather than from the last evaluation, and the 2 buffered
fragments are below the count threshold of 3. -/
theorem C4_no_evaluation_at_t30 :
    (pipeline_step MODEL_ANSWER "frag2" 30 (mkCycle "covered" "covered" "covered" "knows")
        (pipeline_step MODEL_ANSWER "frag1" 15 (mkCycle "covered" "covered" "covered" "knows")
          (init_pipe 0))).buffer = ["frag1", "frag2"] ∧
      (30 : ℤ) - (init_pipe 0).lastTime > 20 ∧
      (pipeline_step MODEL_ANSWER "frag1" 15 (mkCycle "covered" "covered" "covered" "knows")
          (init_pipe 0)).lastTime = 15 ∧
      ¬ ((30 : ℤ) - (pipeline_step MODEL_ANSWER "frag1" 15
            (mkCycle "covered" "covered" "covered" "knows") (init_pipe 0)).lastTime > 20) := by
  refine ⟨by decide, by decide, by decide, by decide⟩

end CnC
